import Mathlib

set_option maxRecDepth 100000

/-!
Verification of the image-capture pipeline of the huely CLI
(src/webcam.ts `WebcamManager` and src/index.ts `HuelyCLI`).

The pipeline is shallowly embedded: byte buffers are `List Nat`
(each element a byte value 0..255), the working directory is a list of
`FileEntry` records, timestamps are `Int` milliseconds, and the external
capture facility, OS platform and Jimp encoder are inputs gathered in an
`AttemptEnv` record.  Every definition is transcribed from the TypeScript
source; comments cite the source lines.
-/

/-! ### Byte buffers -/

/-- Reading `buffer[i]` on a Node `Buffer`: an out-of-range index yields
`undefined`, and `undefined < 20` is `false` in JS.  We model the read with
the sentinel 256 (not a byte value), for which `< 20` is likewise false. -/
def jsByte (l : List Nat) (i : Nat) : Nat := l.getD i 256

/-! ### Frame-quality guard (webcam.ts 685-700, `isImageBlack`) -/

/-- `const sampleSize = Math.min(1000, buffer.length - 100)` — JS number
arithmetic can go negative here, hence `Int`. -/
def sampleSizeI (buffer : List Nat) : Int :=
  min 1000 ((buffer.length : Int) - 100)

/-- Number of iterations of the sampling loop
`for (let i = 100; i < 100 + sampleSize; i++)`. -/
def sampleWindow (buffer : List Nat) : Nat := (sampleSizeI buffer).toNat

/-- The indices the sampling loop reads. -/
def readIndices (buffer : List Nat) : List Nat :=
  (List.range (sampleWindow buffer)).map (fun k => 100 + k)

/-- `blackPixels`: count of sampled bytes with `buffer[i] < 20`. -/
def blackPixels (buffer : List Nat) : Nat :=
  ((readIndices buffer).filter (fun i => decide (jsByte buffer i < 20))).length

/-- webcam.ts 685-700.  The final JS comparison is
`(blackPixels / sampleSize) > 0.9` on IEEE doubles: when `sampleSize <= 0`
the quotient is `NaN` (0/0) or `-0` (0/negative) and the comparison is
false; otherwise both sides are ratios of integers bounded by 1000, whose
distance from 9/10 (when distinct from it) is at least 1/10000, far above
the double rounding error, so the float comparison agrees with the exact
rational comparison `10 * blackPixels > 9 * sampleSize`. -/
def isImageBlack (buffer : List Nat) : Bool :=
  if sampleSizeI buffer ≤ 0 then false
  else decide (9 * sampleSizeI buffer < 10 * (blackPixels buffer : Int))

/-- The sample window, described as the spec does: the slice of
min(1000, length-100) bytes starting at offset 100. -/
def specWindow (buffer : List Nat) : List Nat :=
  (buffer.drop 100).take 1000

/-! ### String helpers (JS semantics) -/

/-- JS `String.prototype.includes`: substring containment. -/
def strIncludes (s sub : String) : Bool :=
  let cs := s.toList
  let ts := sub.toList
  (List.range (cs.length + 1)).any (fun i => decide ((cs.drop i).take ts.length = ts))

/-- JS `String.prototype.startsWith` (list-based so the kernel can
evaluate it). -/
def strStartsWith (s pre : String) : Bool :=
  decide (s.toList.take pre.toList.length = pre.toList)

/-- Lower-casing for the case-insensitive extension regex. -/
def lowerStr (s : String) : String := String.mk (s.toList.map Char.toLower)

/-- Case-insensitive `endsWith`, as the `/..$/i` anchor behaves
(list-based so the kernel can evaluate it). -/
def strEndsWithCI (s suf : String) : Bool :=
  let cs := (lowerStr s).toList
  let ts := (lowerStr suf).toList
  decide (cs.drop (cs.length - ts.length) = ts)

/-- The extensions of the trailing-extension regex
`/\.(jpg|jpeg|bmp|ppm|png)$/i` (webcam.ts 621). -/
def imageExts : List String := [".jpg", ".jpeg", ".bmp", ".ppm", ".png"]

/-- `tempFilepath.replace(/\.(jpg|jpeg|bmp|ppm|png)$/i, '')` — strips one
trailing image extension, case-insensitively.  The five endings are
mutually exclusive, so an ordered `find?` over them matches the regex. -/
def stripImageExt (s : String) : String :=
  match imageExts.find? (fun e => strEndsWithCI s e) with
  | some e => s.dropRight e.length
  | none => s

/-- `Array.prototype.join(', ')` as used for the directory listing. -/
def joinComma : List String → String
  | [] => ""
  | [x] => x
  | x :: y :: xs => x ++ ", " ++ joinComma (y :: xs)

/-! ### Filesystem model

The working directory (`capturesDir`) is a list of files; names are paths
relative to the directory.  `statSync`/`existsSync`/`readFileSync` resolve
a name to its entry; `unlinkSync` removes it; `renameSync` moves an entry
(content and mtime preserved); Jimp `write` creates a fresh entry. -/

structure FileEntry where
  name : String
  mtime : Int
  content : List Nat
deriving DecidableEq

/-- The state of the captures directory. -/
abbrev DirFS := List FileEntry

def fsStat (fs : DirFS) (p : String) : Option FileEntry :=
  fs.find? (fun f => decide (f.name = p))

def fsExists (fs : DirFS) (p : String) : Bool := (fsStat fs p).isSome

def fsRead (fs : DirFS) (p : String) : Option (List Nat) :=
  (fsStat fs p).map (fun f => f.content)

def fsUnlink (fs : DirFS) (p : String) : DirFS :=
  fs.filter (fun f => decide (f.name ≠ p))

/-- Writing a file: replaces any existing entry of that name. -/
def fsWriteEntry (fs : DirFS) (e : FileEntry) : DirFS :=
  fsUnlink fs e.name ++ [e]

/-- `fs.renameSync(src, dst)`: content and mtime move unchanged. -/
def fsRename (fs : DirFS) (src dst : String) : DirFS :=
  match fsStat fs src with
  | none => fs
  | some st => fsWriteEntry (fsUnlink fs src) ⟨dst, st.mtime, st.content⟩

/-- `fs.readdirSync`: the file names. -/
def fsReaddir (fs : DirFS) : List String := fs.map (fun f => f.name)

/-- Files written by the external capture facility, in order. -/
def fsWriteAll (fs : DirFS) (es : List FileEntry) : DirFS :=
  es.foldl fsWriteEntry fs

/-! ### Pre-attempt sweep (webcam.ts 708-731, `clearOldCaptures`) -/

/-- `const thirtySeconds = 30 * 1000`. -/
def thirtySecondsMs : Int := 30 * 1000

/-- webcam.ts 708-731: delete every file whose name starts with
`capture_` and whose age `now - mtimeMs` strictly exceeds 30 s; every
other file is untouched. -/
def clearOldCaptures (now : Int) (fs : DirFS) : DirFS :=
  fs.filter (fun f =>
    !(strStartsWith f.name "capture_" && decide (now - f.mtime > thirtySecondsMs)))

/-! ### One capture attempt (webcam.ts 587-683, `captureImage`)

External nondeterminism of one attempt — the platform tag, the generated
unique id, the clock readings, the capture facility's callback values and
the files it wrote, and the Jimp JPEG re-encoder — is collected in an
`AttemptEnv`.  File names are paths relative to `capturesDir`. -/

structure AttemptEnv where
  /-- `process.platform`. -/
  platform : String
  /-- `` `${timestamp}_${randomId}` `` (webcam.ts 590-592). -/
  uniqueId : String
  /-- `Date.now()` when the attempt starts (sweep time). -/
  now0 : Int
  /-- `Date.now()` at the freshness check (webcam.ts 640). -/
  now1 : Int
  /-- mtime given to the Jimp-written converted file. -/
  nowWrite : Int
  /-- `err` handed to the capture callback (`some` = device error). -/
  captureErr : Option String
  /-- `data` handed to the capture callback (the reported path). -/
  data : Option String
  /-- Files the capture facility wrote before invoking the callback. -/
  written : List FileEntry
  /-- Jimp decode + re-encode to JPEG (`Jimp.read` then `image.write`). -/
  jimp : List Nat → List Nat

/-- webcam.ts 598-600: on Linux fswebcam needs the extension spelled out. -/
def tempFilename (env : AttemptEnv) : String :=
  if env.platform = "linux" then "capture_temp_" ++ env.uniqueId ++ ".jpg"
  else "capture_temp_" ++ env.uniqueId

/-- webcam.ts 602: `capture_<uniqueId>.jpeg`. -/
def finalFilename (env : AttemptEnv) : String :=
  "capture_" ++ env.uniqueId ++ ".jpeg"

/-- webcam.ts 616: `let capturedPath = data || tempFilepath` (an empty
string is falsy in JS). -/
def reportedPath (env : AttemptEnv) : String :=
  match env.data with
  | some d => if d = "" then tempFilename env else d
  | none => tempFilename env

/-- webcam.ts 621: the base path with any trailing image extension
stripped. -/
def baseFilepath (env : AttemptEnv) : String :=
  stripImageExt (tempFilename env)

/-- webcam.ts 622: the probed candidate extensions, in order. -/
def probeExts : List String := [".jpg", ".jpeg", ".bmp", ".ppm", ".png", ""]

/-- webcam.ts 625: a candidate is accepted when the file exists and its
path contains the unique session id. -/
def candidateOk (env : AttemptEnv) (fs : DirFS) (e : String) : Bool :=
  fsExists fs (baseFilepath env ++ e) && strIncludes (baseFilepath env ++ e) env.uniqueId

/-- webcam.ts 616-630: resolve the actual artifact location.  If the
reported path exists it is used; otherwise the first accepted probe
candidate; otherwise the (non-existent) reported path is kept and the
not-found error follows. -/
def resolveArtifact (env : AttemptEnv) (fs : DirFS) : String :=
  let rp := reportedPath env
  if fsExists fs rp then rp
  else
    match probeExts.find? (candidateOk env fs) with
    | some e => baseFilepath env ++ e
    | none => rp

/-- webcam.ts 677-679: every thrown error is re-thrown as
`Failed to process captured image: ${error}`, and `${error}` on a JS
`Error` renders as `Error: <message>`. -/
def wrapMsg (m : String) : String :=
  "Failed to process captured image: Error: " ++ m

/-- webcam.ts 661/670. -/
def blackMsg : String :=
  wrapMsg "Captured image appears to be black. Camera may need more warm-up time."

/-- webcam.ts 642. -/
def staleMsg (age : Int) : String :=
  wrapMsg ("Captured image appears to be stale (" ++ toString age ++
    "ms old). This might be a previous capture.")

/-- webcam.ts 635. -/
def notFoundMsg (p uid : String) (files : List String) : String :=
  wrapMsg ("Captured image not found. Looked for: " ++ p ++ " with ID: " ++
    uid ++ ". Files in dir: " ++ joinComma files)

/-- webcam.ts 647: BMP magic `0x42 0x4D`. -/
def isBmpBytes (b : List Nat) : Bool :=
  decide (jsByte b 0 = 0x42) && decide (jsByte b 1 = 0x4D)

/-- webcam.ts 648: PPM magic `0x50 0x36`. -/
def isPpmBytes (b : List Nat) : Bool :=
  decide (jsByte b 0 = 0x50) && decide (jsByte b 1 = 0x36)

/-- Result of one `captureImage` call: the resolved promise value or the
rejection message, together with the directory state left behind. -/
inductive CapResult where
  | ok (path : String) (fs : DirFS)
  | err (msg : String) (fs : DirFS)
deriving DecidableEq

/-- The directory state a capture attempt leaves behind. -/
def CapResult.dir : CapResult → DirFS
  | .ok _ fs => fs
  | .err _ fs => fs

/-- webcam.ts 594-608: the state of the directory when the callback runs —
old captures swept, then the facility's output files written. -/
def sweptFS (env : AttemptEnv) (fs : DirFS) : DirFS :=
  fsWriteAll (clearOldCaptures env.now0 fs) env.written

/-- webcam.ts 610-680: the capture callback body (err = null case). -/
def processArtifact (env : AttemptEnv) (fs2 : DirFS) : CapResult :=
  let p := resolveArtifact env fs2
  match fsStat fs2 p with
  | none => .err (notFoundMsg p env.uniqueId (fsReaddir fs2)) fs2
  | some st =>
    let fileAge := env.now1 - st.mtime
    if fileAge > 5000 then .err (staleMsg fileAge) fs2
    else
      let buffer := st.content
      if isBmpBytes buffer || isPpmBytes buffer then
        -- Jimp conversion to JPEG, then removal of the intermediate file,
        -- then the black check on the bytes read back from disk.
        let fs3 := fsWriteEntry fs2 ⟨finalFilename env, env.nowWrite, env.jimp buffer⟩
        let fs4 := fsUnlink fs3 p
        match fsRead fs4 (finalFilename env) with
        | none =>
          -- readFileSync on a missing file (only when the captured path
          -- IS the final path): ENOENT, wrapped like every other error.
          .err (wrapMsg ("ENOENT: no such file or directory, open " ++
            finalFilename env)) fs4
        | some finalBuffer =>
          if isImageBlack finalBuffer then .err blackMsg fs4
          else .ok (finalFilename env) fs4
      else
        if isImageBlack buffer then .err blackMsg (fsUnlink fs2 p)
        else .ok (finalFilename env) (fsRename fs2 p (finalFilename env))

/-- webcam.ts 587-683: one full `captureImage` call on directory state
`fs0`.  A device error from the capture facility is rejected as-is
(webcam.ts 612); otherwise the callback body runs. -/
def captureImage (env : AttemptEnv) (fs0 : DirFS) : CapResult :=
  match env.captureErr with
  | some m => .err m (clearOldCaptures env.now0 fs0)
  | none => processArtifact env (sweptFS env fs0)

/-! ### Capture orchestrator (index.ts 84-107, `captureAndAnalyze` loop) -/

/-- `const maxRetries = 3` (index.ts 85). -/
def maxRetries : Nat := 3

/-- `setTimeout(resolve, 2000)` (index.ts 97). -/
def settleDelayMs : Nat := 2000

/-- Outcome of the retry loop: resolved path or thrown error message, the
directory state, the number of `captureImage` calls made, and the settle
delays slept between consecutive attempts. -/
inductive LoopOutcome where
  | ok (path : String) (fs : DirFS) (attempts : Nat) (delays : List Nat)
  | err (msg : String) (fs : DirFS) (attempts : Nat) (delays : List Nat)
deriving DecidableEq

/-- Record a settle delay in front of the remaining run. -/
def addDelay (d : Nat) : LoopOutcome → LoopOutcome
  | .ok p fs a ds => .ok p fs a (d :: ds)
  | .err m fs a ds => .err m fs a (d :: ds)

def LoopOutcome.attempts : LoopOutcome → Nat
  | .ok _ _ a _ => a
  | .err _ _ a _ => a

def LoopOutcome.delays : LoopOutcome → List Nat
  | .ok _ _ _ d => d
  | .err _ _ _ d => d

/-- index.ts 88-103: `while (!imagePath && retryCount < maxRetries)`.
`k` is `retryCount` at loop entry; the fuel equals `maxRetries - k`, so
fuel 0 is exactly the loop exiting with no image, which falls through to
`throw new Error('Failed to capture image after multiple attempts')`
(index.ts 105-107).  On a caught error, `retryCount++`; when the message
contains `'black'` and `retryCount < maxRetries`, sleep 2000 ms and
continue; otherwise rethrow the caught error. -/
def captureLoopAux (envs : Nat → AttemptEnv) : Nat → Nat → DirFS → LoopOutcome
  | 0, k, fs => .err "Failed to capture image after multiple attempts" fs k []
  | fuel + 1, k, fs =>
    match captureImage (envs k) fs with
    | .ok p fs2 => .ok p fs2 (k + 1) []
    | .err m fs2 =>
      if strIncludes m "black" && decide (k + 1 < maxRetries) then
        addDelay settleDelayMs (captureLoopAux envs fuel (k + 1) fs2)
      else .err m fs2 (k + 1) []

/-- One orchestrator run: the retry loop entered with `retryCount = 0`.
The attempt environments `envs k` carry the external nondeterminism of
each attempt. -/
def captureLoop (envs : Nat → AttemptEnv) (fs : DirFS) : LoopOutcome :=
  captureLoopAux envs maxRetries 0 fs

/-! ### Device enumeration (webcam.ts 503-553, `listDevices`) -/

structure WebcamDevice where
  name : String
  id : String
deriving DecidableEq

/-- Ambient platform state for enumeration: the platform tag, which
`/dev/videoN` nodes exist, the `NodeWebcam.list` callback value
(`none` models a null list), and the OS camera names obtained by
`getCameraNames` (an external shell query). -/
structure PlatformState where
  platform : String
  devVideoExists : Nat → Bool
  nwList : Option (List String)
  cameraNames : List String

/-- webcam.ts 506-523: Linux probing of `/dev/video0` .. `/dev/video9`. -/
def linuxVideoDevices (s : PlatformState) : List WebcamDevice :=
  ((List.range 10).filter s.devVideoExists).map
    (fun i => ⟨"USB Camera (video" ++ toString i ++ ")", toString i⟩)

/-- JS `parseInt` restricted to the decimal inputs that occur here:
optional whitespace, optional sign, then leading digits; `none` is NaN. -/
def jsParseInt (str : String) : Option Int :=
  let cs := (str.toList.dropWhile (fun c => decide (c = ' '))).dropWhile
    (fun c => decide (c = '+'))
  let neg := decide (cs.take 1 = ['-'])
  let ds := (if neg then cs.drop 1 else cs).takeWhile Char.isDigit
  if ds.isEmpty then none
  else
    let n : Int := ds.foldl (fun a c => a * 10 + ((c.toNat - 48 : Nat) : Int)) 0
    some (if neg then -n else n)

/-- `` `${x}` `` for a JS number that may be NaN. -/
def jsNumToString : Option Int → String
  | none => "NaN"
  | some n => toString n

/-- webcam.ts 535-547: build one descriptor from the node-webcam token and
its index; empty strings are falsy. -/
def mkDeviceEntry (names : List String) (idx : Nat) (device : String) : WebcamDevice :=
  let fromOS := names.getD idx ""
  let nm :=
    if fromOS ≠ "" then fromOS
    else if device ≠ "" then
      "Webcam " ++ jsNumToString ((jsParseInt device).map (fun n => n + 1)) ++
        " (Device " ++ device ++ ")"
    else "Camera " ++ toString (idx + 1)
  ⟨nm, if device ≠ "" then device else toString idx⟩

/-- webcam.ts 529-533: the synthetic fallback list. -/
def defaultDeviceList : List WebcamDevice := [⟨"Default Camera", "0"⟩]

/-- webcam.ts 503-553: Linux `/dev/video` probing first; if it yields
nothing (or off Linux), node-webcam listing; a null or empty list becomes
the synthetic default entry. -/
def listDevices (s : PlatformState) : List WebcamDevice :=
  if s.platform = "linux" ∧ linuxVideoDevices s ≠ [] then linuxVideoDevices s
  else
    match s.nwList with
    | none => defaultDeviceList
    | some [] => defaultDeviceList
    | some l => l.enum.map (fun pr => mkDeviceEntry s.cameraNames pr.1 pr.2)

/-! ### Concrete inputs for witnesses and counterexamples -/

/-- A short JPEG-like buffer (starts `0xFF 0xD8`; too short to be black). -/
def jpegBytes : List Nat := [255, 216, 255, 224]

/-- A 200-byte all-dark buffer classified degenerate by the guard. -/
def blackBytes : List Nat := List.replicate 200 0

/-- Fresh non-BMP/PPM capture: the rename path succeeds. -/
def envRename : AttemptEnv :=
  ⟨"win32", "1000_aaaaaa", 100000, 100000, 100000, none, none,
    [⟨"capture_temp_1000_aaaaaa", 99000, jpegBytes⟩], fun b => b⟩

/-- Same artifact but 10 s old: stale rejection. -/
def envStale : AttemptEnv :=
  ⟨"win32", "1000_aaaaaa", 100000, 100000, 100000, none, none,
    [⟨"capture_temp_1000_aaaaaa", 90000, jpegBytes⟩], fun b => b⟩

/-- The facility reports a non-existent path but wrote a same-session
`.jpg` sibling: probing recovers it. -/
def envProbe : AttemptEnv :=
  ⟨"win32", "2000_bbbbbb", 100000, 100000, 100000, none, some "/missing/path",
    [⟨"capture_temp_2000_bbbbbb.jpg", 99500, jpegBytes⟩], fun b => b⟩

/-- A PPM capture whose Jimp re-encoding is a black JPEG: the convert
branch rejects but leaves the converted file on disk. -/
def envConvertBlack : AttemptEnv :=
  ⟨"sunos", "3000_cccccc", 100000, 100000, 100000, none, none,
    [⟨"capture_temp_3000_cccccc", 100000, [80, 54, 70]⟩], fun _ => blackBytes⟩

/-- A PPM capture whose Jimp re-encoding is a valid (non-black) JPEG: the
convert branch succeeds, leaving exactly the final JPEG. -/
def envConvertOk : AttemptEnv :=
  ⟨"sunos", "8000_hhhhhh", 100000, 100000, 100000, none, none,
    [⟨"capture_temp_8000_hhhhhh", 100000, [80, 54, 99]⟩], fun _ => jpegBytes⟩

/-- Attempt environments that each produce a fresh black (non-BMP/PPM)
frame: the rename-branch black rejection on every attempt. -/
def allBlackEnvs : Nat → AttemptEnv := fun k =>
  ⟨"win32", "4000_d" ++ toString k, 0, 0, 0, none, none,
    [⟨"capture_temp_4000_d" ++ toString k, 0, blackBytes⟩], fun b => b⟩

/-- Attempt environments that each produce a PPM converting to a black
JPEG: the convert-branch black rejection on every attempt. -/
def allConvertBlackEnvs : Nat → AttemptEnv := fun k =>
  ⟨"sunos", "5000_e" ++ toString k, 0, 0, 0, none, none,
    [⟨"capture_temp_5000_e" ++ toString k, 0, [80, 54, 70]⟩], fun _ => blackBytes⟩

/-- Attempt 0: nothing is written while an unrelated file named
`blackmail.png` sits in the directory, so the not-found error message
contains the substring `black`; attempt 1 is a device error. -/
def mixedFailEnvs : Nat → AttemptEnv := fun k =>
  if k = 0 then
    ⟨"win32", "6000_f0", 100000, 100000, 100000, none, none, [], fun b => b⟩
  else
    ⟨"win32", "6000_f1", 100000, 100000, 100000, some "device unplugged", none,
      [], fun b => b⟩

/-- The directory state for `mixedFailEnvs`: one fresh unrelated file. -/
def mixedFailFS : DirFS := [⟨"blackmail.png", 99000, [1, 2, 3]⟩]

/-- A device error on the very first attempt, message without `black`. -/
def deviceErrEnvs : Nat → AttemptEnv := fun _ =>
  ⟨"win32", "7000_g0", 100000, 100000, 100000, some "device unplugged", none,
    [], fun b => b⟩

/-! ### C9: device enumeration never returns an empty list -/

/-- A platform state with no cameras anywhere. -/
def emptyPlatform : PlatformState := ⟨"win32", fun _ => false, some [], []⟩

/-- A Linux platform state with `/dev/video0` present. -/
def linuxPlatform : PlatformState := ⟨"linux", fun i => decide (i = 0), none, []⟩

/-! ## Theorems -/

/-- Counting a predicate over loop indices `off, off+1, ..., off+n-1`
equals counting it over the corresponding slice of the list. -/
theorem count_range_slice (l : List Nat) (off n : Nat) (h : off + n ≤ l.length) :
    (((List.range n).map (fun k => off + k)).filter
        (fun i => decide (jsByte l i < 20))).length
      = ((l.drop off).take n).countP (fun b => decide (b < 20)) := by
  induction n with
  | zero => simp
  | succ n ih =>
    have hn : off + n ≤ l.length := by omega
    have hlt : off + n < l.length := by omega
    rw [List.range_succ, List.map_append, List.filter_append, List.length_append,
      ih hn]
    have hdrop : (l.drop off)[n]? = l[off + n]? := by
      rw [List.getElem?_drop]
    have hsome : l[off + n]? = some (l.get ⟨off + n, hlt⟩) := by
      rw [List.getElem?_eq_getElem hlt]
      rfl
    have htake : (l.drop off).take (n + 1) = (l.drop off).take n ++ [l.get ⟨off + n, hlt⟩] := by
      rw [List.take_succ, hdrop, hsome]
      rfl
    rw [htake, List.countP_append]
    have hbyte : jsByte l (off + n) = l.get ⟨off + n, hlt⟩ := by
      unfold jsByte
      rw [List.getD_eq_getElem?_getD, hsome]
      rfl
    congr 1
    by_cases hc : l[off + n] < 20 <;>
      simp [List.filter_singleton, List.countP_cons, hbyte, List.get_eq_getElem, hc]

/-- The loop count equals the count over the spec-side window slice. -/
theorem blackPixels_eq_specWindow (buffer : List Nat) :
    blackPixels buffer = (specWindow buffer).countP (fun b => decide (b < 20)) := by
  unfold blackPixels readIndices specWindow
  have hw : sampleWindow buffer ≤ buffer.length - 100 := by
    unfold sampleWindow sampleSizeI
    omega
  by_cases h100 : 100 ≤ buffer.length
  · have hb : 100 + sampleWindow buffer ≤ buffer.length := by omega
    rw [count_range_slice buffer 100 (sampleWindow buffer) hb]
    have hlen : (buffer.drop 100).length = buffer.length - 100 :=
      List.length_drop 100 buffer
    have : (buffer.drop 100).take 1000 = (buffer.drop 100).take (sampleWindow buffer) := by
      rw [List.take_eq_take]
      unfold sampleWindow sampleSizeI
      omega
    rw [this]
  · have hzero : sampleWindow buffer = 0 := by
      unfold sampleWindow sampleSizeI
      omega
    have hdrop : buffer.drop 100 = [] := by
      apply List.drop_eq_nil_of_le
      omega
    simp [hzero, hdrop]

/-- Sanity: a 200-byte all-zero buffer (window of 100 dark bytes) is black. -/
example : isImageBlack (List.replicate 200 0) = true := by decide

/-- Sanity: a 100-byte buffer has an empty window and is never black. -/
example : isImageBlack (List.replicate 100 0) = false := by decide

/-- Sanity: exactly 90 percent dark is NOT classified black (strict bound):
the window here is 10 bytes, 9 of them dark. -/
example : isImageBlack (List.replicate 100 0 ++ (List.replicate 9 0 ++ [255])) = false := by decide

/-- C3: the frame-quality guard classifies a JPEG byte buffer as degenerate
if and only if, among the window of min(1000, length-100) bytes starting at
offset 100, the fraction of bytes below the low-brightness threshold
(byte value < 20) strictly exceeds 90 percent.  (Stated for buffers long
enough for the window to be non-empty; shorter buffers are claim C10.) -/
theorem black_guard_iff_dark_fraction (buffer : List Nat) (h : 100 < buffer.length) :
    isImageBlack buffer = true ↔
      9 * (specWindow buffer).length <
        10 * (specWindow buffer).countP (fun b => decide (b < 20)) := by
  unfold isImageBlack
  have hpos : ¬ sampleSizeI buffer ≤ 0 := by
    unfold sampleSizeI
    omega
  rw [if_neg hpos]
  have hlen : (specWindow buffer).length = sampleWindow buffer := by
    unfold specWindow sampleWindow sampleSizeI
    rw [List.length_take, List.length_drop]
    omega
  have h1 : sampleSizeI buffer = (sampleWindow buffer : Int) := by
    unfold sampleWindow
    omega
  simp only [decide_eq_true_eq]
  rw [blackPixels_eq_specWindow, h1, hlen]
  omega

/-- Witness for C3 at a concrete 101-byte all-dark buffer. -/
theorem black_guard_iff_dark_fraction_witness :
    isImageBlack (List.replicate 101 0) = true :=
  (black_guard_iff_dark_fraction (List.replicate 101 0) (by decide)).mpr (by decide)

/-- C10: the frame-quality guard is total and in-bounds: every index the
sampling loop reads lies inside the buffer, and every buffer of length at
most 100 (empty or negative sample window, hence a 0/0 or 0/negative
dark-byte fraction in JS) is classified not-degenerate. -/
theorem black_guard_inbounds_and_short_false (buffer : List Nat) :
    (∀ i ∈ readIndices buffer, i < buffer.length) ∧
      (buffer.length ≤ 100 → isImageBlack buffer = false) := by
  constructor
  · intro i hi
    unfold readIndices at hi
    simp only [List.mem_map, List.mem_range] at hi
    obtain ⟨k, hk, rfl⟩ := hi
    unfold sampleWindow sampleSizeI at hk
    omega
  · intro hle
    unfold isImageBlack
    rw [if_pos]
    unfold sampleSizeI
    omega

/-- Witness for C10: a 60-byte buffer is not degenerate, and on a 150-byte
buffer every sampled index is in bounds. -/
theorem black_guard_inbounds_and_short_false_witness :
    isImageBlack (List.replicate 60 0) = false ∧
      ∀ i ∈ readIndices (List.replicate 150 0), i < (List.replicate 150 0).length :=
  ⟨(black_guard_inbounds_and_short_false (List.replicate 60 0)).2 (by decide),
   (black_guard_inbounds_and_short_false (List.replicate 150 0)).1⟩

/-- Sanity checks for the string helpers. -/
example : strIncludes "abc black frame" "black" = true := by decide

example : strIncludes "stale image" "black" = false := by decide

example : stripImageExt "capture_temp_1_a.jpg" = "capture_temp_1_a" := by decide

example : stripImageExt "capture_temp_1_a" = "capture_temp_1_a" := by decide

example : joinComma ["a.jpg", "b.png"] = "a.jpg, b.png" := by decide

/-- C8: the pre-attempt sweep deletes exactly those files that both carry
the `capture_` artifact prefix and are strictly older than the 30-second
staleness window; younger files and files without the prefix survive,
regardless of session ownership. -/
theorem sweep_deletes_exactly_stale_artifacts (now : Int) (fs : DirFS) (f : FileEntry) :
    f ∈ clearOldCaptures now fs ↔
      f ∈ fs ∧ ¬(strStartsWith f.name "capture_" = true ∧ now - f.mtime > thirtySecondsMs) := by
  unfold clearOldCaptures
  rw [List.mem_filter]
  constructor
  · rintro ⟨hmem, hcond⟩
    refine ⟨hmem, ?_⟩
    rintro ⟨hpre, hage⟩
    simp [hpre, hage] at hcond
  · rintro ⟨hmem, hcond⟩
    refine ⟨hmem, ?_⟩
    by_cases hpre : strStartsWith f.name "capture_" = true
    · by_cases hage : now - f.mtime > thirtySecondsMs
      · exact absurd ⟨hpre, hage⟩ hcond
      · simp [hpre, hage]
    · simp [hpre]

/-- Witness for C8: a fresh same-prefix file and an old unrelated file both
survive a sweep at time 100000; an old `capture_` file is removed. -/
theorem sweep_deletes_exactly_stale_artifacts_witness :
    (⟨"capture_1_a.jpeg", 95000, []⟩ : FileEntry) ∈
        clearOldCaptures 100000
          [⟨"capture_1_a.jpeg", 95000, []⟩, ⟨"capture_0_z.jpeg", 60000, []⟩,
           ⟨"unrelated.txt", 0, []⟩] ∧
      (⟨"unrelated.txt", 0, []⟩ : FileEntry) ∈
        clearOldCaptures 100000
          [⟨"capture_1_a.jpeg", 95000, []⟩, ⟨"capture_0_z.jpeg", 60000, []⟩,
           ⟨"unrelated.txt", 0, []⟩] ∧
      ¬ ((⟨"capture_0_z.jpeg", 60000, []⟩ : FileEntry) ∈
        clearOldCaptures 100000
          [⟨"capture_1_a.jpeg", 95000, []⟩, ⟨"capture_0_z.jpeg", 60000, []⟩,
           ⟨"unrelated.txt", 0, []⟩]) :=
  ⟨(sweep_deletes_exactly_stale_artifacts 100000 _ _).mpr ⟨by decide, by decide⟩,
   (sweep_deletes_exactly_stale_artifacts 100000 _ _).mpr ⟨by decide, by decide⟩,
   fun hmem =>
     by
       have h := (sweep_deletes_exactly_stale_artifacts 100000 _ _).mp hmem
       exact h.2 ⟨by decide, by decide⟩⟩

/-! ### Directory-state lemmas -/

theorem fsStat_unlink_self (fs : DirFS) (p : String) :
    fsStat (fsUnlink fs p) p = none := by
  unfold fsStat fsUnlink
  rw [List.find?_eq_none]
  intro f hf
  have hmem := List.of_mem_filter hf
  simp at hmem
  simp [hmem]

theorem fsStat_unlink_ne (fs : DirFS) (p q : String) (h : q ≠ p) :
    fsStat (fsUnlink fs p) q = fsStat fs q := by
  unfold fsStat fsUnlink
  rw [List.find?_filter]
  congr 1
  funext f
  by_cases hq : f.name = q
  · have hp : f.name ≠ p := by
      rw [hq]
      exact h
    simp [hq, hp]
    exact h
  · simp [hq]

theorem fsExists_unlink_self (fs : DirFS) (p : String) :
    fsExists (fsUnlink fs p) p = false := by
  unfold fsExists
  rw [fsStat_unlink_self]
  rfl

theorem fsStat_writeEntry_self (fs : DirFS) (e : FileEntry) :
    fsStat (fsWriteEntry fs e) e.name = some e := by
  unfold fsWriteEntry
  have h1 := fsStat_unlink_self fs e.name
  unfold fsStat at h1 ⊢
  rw [List.find?_append, h1]
  simp

theorem fsStat_writeEntry_ne (fs : DirFS) (e : FileEntry) (q : String) (h : q ≠ e.name) :
    fsStat (fsWriteEntry fs e) q = fsStat (fsUnlink fs e.name) q := by
  unfold fsWriteEntry
  have h2 : List.find? (fun f => decide (f.name = q)) [e] = none := by
    simp
    exact fun hh => h hh.symm
  unfold fsStat
  rw [List.find?_append, h2]
  simp

theorem fsRead_rename_dst (fs : DirFS) (src dst : String) (st : FileEntry)
    (h : fsStat fs src = some st) :
    fsRead (fsRename fs src dst) dst = some st.content := by
  unfold fsRename
  rw [h]
  unfold fsRead
  have hw := fsStat_writeEntry_self (fsUnlink fs src) ⟨dst, st.mtime, st.content⟩
  rw [hw]
  rfl

theorem mem_fsUnlink (fs : DirFS) (p : String) (f : FileEntry)
    (h : f ∈ fsUnlink fs p) : f ∈ fs ∧ f.name ≠ p := by
  unfold fsUnlink at h
  have h2 := List.mem_filter.mp h
  refine ⟨h2.1, ?_⟩
  simpa using h2.2

theorem mem_fsWriteEntry (fs : DirFS) (e : FileEntry) (f : FileEntry)
    (h : f ∈ fsWriteEntry fs e) : f = e ∨ (f ∈ fs ∧ f.name ≠ e.name) := by
  unfold fsWriteEntry at h
  rcases List.mem_append.mp h with h | h
  · right
    exact mem_fsUnlink fs e.name f h
  · left
    simpa using h

/-! ### C5: staleness rejection -/

/-- C5: whenever the resolved candidate artifact is older than the 5000 ms
freshness threshold relative to the clock reading at the check, the
attempt rejects with the stale-artifact error (whatever the file content
is), and the stale file is never returned as the capture result. -/
theorem stale_artifact_rejected (env : AttemptEnv) (fs0 : DirFS) (st : FileEntry)
    (h1 : env.captureErr = none)
    (h2 : fsStat (sweptFS env fs0) (resolveArtifact env (sweptFS env fs0)) = some st)
    (h3 : env.now1 - st.mtime > 5000) :
    captureImage env fs0 =
      .err (staleMsg (env.now1 - st.mtime)) (sweptFS env fs0) := by
  simp only [captureImage, h1, processArtifact, h2]
  rw [if_pos h3]

/-! ### C6: candidate-extension probing -/

/-- Sanity: probing resolves the same-session `.jpg` sibling. -/
example : resolveArtifact envProbe (sweptFS envProbe []) =
    "capture_temp_2000_bbbbbb.jpg" := by decide

/-- C6: when the reported output path does not exist, the attempt probes
`.jpg`, `.jpeg`, `.bmp`, `.ppm`, `.png`, then no extension, appended to
the expected base name, accepts exactly the first existing candidate whose
path contains the session id, and rejects with the artifact-not-found
error when no candidate is acceptable. -/
theorem artifact_probe_order (env : AttemptEnv) (fs0 : DirFS)
    (h1 : env.captureErr = none)
    (h2 : fsExists (sweptFS env fs0) (reportedPath env) = false) :
    ((∀ e ∈ probeExts, candidateOk env (sweptFS env fs0) e = false) →
        captureImage env fs0 =
          .err (notFoundMsg (reportedPath env) env.uniqueId
            (fsReaddir (sweptFS env fs0))) (sweptFS env fs0)) ∧
      (∀ i : Fin probeExts.length,
        candidateOk env (sweptFS env fs0) (probeExts.get i) = true →
        (∀ j : Fin probeExts.length, (j : Nat) < (i : Nat) →
            candidateOk env (sweptFS env fs0) (probeExts.get j) = false) →
        resolveArtifact env (sweptFS env fs0) = baseFilepath env ++ probeExts.get i) := by
  have hne : ¬ (fsExists (sweptFS env fs0) (reportedPath env) = true) := by
    simp [h2]
  constructor
  · intro hall
    have hfind : probeExts.find? (candidateOk env (sweptFS env fs0)) = none := by
      rw [List.find?_eq_none]
      intro e he
      simp [hall e he]
    have hres : resolveArtifact env (sweptFS env fs0) = reportedPath env := by
      simp only [resolveArtifact]
      rw [if_neg hne, hfind]
    have hstat : fsStat (sweptFS env fs0) (reportedPath env) = none := by
      unfold fsExists at h2
      cases hopt : fsStat (sweptFS env fs0) (reportedPath env) with
      | none => rfl
      | some v =>
        rw [hopt] at h2
        simp at h2
    simp only [captureImage, h1, processArtifact, hres, hstat]
  · intro i hcand hbefore
    rcases i with ⟨iv, hi⟩
    have hexts : probeExts = [".jpg", ".jpeg", ".bmp", ".ppm", ".png", ""] := rfl
    have hi6 : iv < 6 := by simpa [hexts] using hi
    interval_cases iv
    · have c0 : candidateOk env (sweptFS env fs0) ".jpg" = true := hcand
      have hfind : probeExts.find? (candidateOk env (sweptFS env fs0)) =
          some ".jpg" := by
        rw [hexts, List.find?_cons_of_pos _ (by simp [c0])]
      simp only [resolveArtifact]
      rw [if_neg hne, hfind]
      rfl
    · have e0 : candidateOk env (sweptFS env fs0) ".jpg" = false :=
        hbefore ⟨0, by decide⟩ (by simp)
      have c1 : candidateOk env (sweptFS env fs0) ".jpeg" = true := hcand
      have hfind : probeExts.find? (candidateOk env (sweptFS env fs0)) =
          some ".jpeg" := by
        rw [hexts, List.find?_cons_of_neg _ (by simp [e0]),
          List.find?_cons_of_pos _ (by simp [c1])]
      simp only [resolveArtifact]
      rw [if_neg hne, hfind]
      rfl
    · have e0 : candidateOk env (sweptFS env fs0) ".jpg" = false :=
        hbefore ⟨0, by decide⟩ (by simp)
      have e1 : candidateOk env (sweptFS env fs0) ".jpeg" = false :=
        hbefore ⟨1, by decide⟩ (by simp)
      have c2 : candidateOk env (sweptFS env fs0) ".bmp" = true := hcand
      have hfind : probeExts.find? (candidateOk env (sweptFS env fs0)) =
          some ".bmp" := by
        rw [hexts, List.find?_cons_of_neg _ (by simp [e0]),
          List.find?_cons_of_neg _ (by simp [e1]),
          List.find?_cons_of_pos _ (by simp [c2])]
      simp only [resolveArtifact]
      rw [if_neg hne, hfind]
      rfl
    · have e0 : candidateOk env (sweptFS env fs0) ".jpg" = false :=
        hbefore ⟨0, by decide⟩ (by simp)
      have e1 : candidateOk env (sweptFS env fs0) ".jpeg" = false :=
        hbefore ⟨1, by decide⟩ (by simp)
      have e2 : candidateOk env (sweptFS env fs0) ".bmp" = false :=
        hbefore ⟨2, by decide⟩ (by simp)
      have c3 : candidateOk env (sweptFS env fs0) ".ppm" = true := hcand
      have hfind : probeExts.find? (candidateOk env (sweptFS env fs0)) =
          some ".ppm" := by
        rw [hexts, List.find?_cons_of_neg _ (by simp [e0]),
          List.find?_cons_of_neg _ (by simp [e1]),
          List.find?_cons_of_neg _ (by simp [e2]),
          List.find?_cons_of_pos _ (by simp [c3])]
      simp only [resolveArtifact]
      rw [if_neg hne, hfind]
      rfl
    · have e0 : candidateOk env (sweptFS env fs0) ".jpg" = false :=
        hbefore ⟨0, by decide⟩ (by simp)
      have e1 : candidateOk env (sweptFS env fs0) ".jpeg" = false :=
        hbefore ⟨1, by decide⟩ (by simp)
      have e2 : candidateOk env (sweptFS env fs0) ".bmp" = false :=
        hbefore ⟨2, by decide⟩ (by simp)
      have e3 : candidateOk env (sweptFS env fs0) ".ppm" = false :=
        hbefore ⟨3, by decide⟩ (by simp)
      have c4 : candidateOk env (sweptFS env fs0) ".png" = true := hcand
      have hfind : probeExts.find? (candidateOk env (sweptFS env fs0)) =
          some ".png" := by
        rw [hexts, List.find?_cons_of_neg _ (by simp [e0]),
          List.find?_cons_of_neg _ (by simp [e1]),
          List.find?_cons_of_neg _ (by simp [e2]),
          List.find?_cons_of_neg _ (by simp [e3]),
          List.find?_cons_of_pos _ (by simp [c4])]
      simp only [resolveArtifact]
      rw [if_neg hne, hfind]
      rfl
    · have e0 : candidateOk env (sweptFS env fs0) ".jpg" = false :=
        hbefore ⟨0, by decide⟩ (by simp)
      have e1 : candidateOk env (sweptFS env fs0) ".jpeg" = false :=
        hbefore ⟨1, by decide⟩ (by simp)
      have e2 : candidateOk env (sweptFS env fs0) ".bmp" = false :=
        hbefore ⟨2, by decide⟩ (by simp)
      have e3 : candidateOk env (sweptFS env fs0) ".ppm" = false :=
        hbefore ⟨3, by decide⟩ (by simp)
      have e4 : candidateOk env (sweptFS env fs0) ".png" = false :=
        hbefore ⟨4, by decide⟩ (by simp)
      have c5 : candidateOk env (sweptFS env fs0) "" = true := hcand
      have hfind : probeExts.find? (candidateOk env (sweptFS env fs0)) =
          some "" := by
        rw [hexts, List.find?_cons_of_neg _ (by simp [e0]),
          List.find?_cons_of_neg _ (by simp [e1]),
          List.find?_cons_of_neg _ (by simp [e2]),
          List.find?_cons_of_neg _ (by simp [e3]),
          List.find?_cons_of_neg _ (by simp [e4]),
          List.find?_cons_of_pos _ (by simp [c5])]
      simp only [resolveArtifact]
      rw [if_neg hne, hfind]
      rfl

/-- Witness for C6: the spec scenario — the reported path is missing but
the same-session `.jpg` sibling exists, and probing accepts it first. -/
theorem artifact_probe_order_witness :
    resolveArtifact envProbe (sweptFS envProbe []) =
      baseFilepath envProbe ++ ".jpg" :=
  (artifact_probe_order envProbe [] rfl (by decide)).2 ⟨0, by decide⟩ (by decide)
    (fun j hj => absurd hj (Nat.not_lt_zero _))

/-! ### C7: normalization is byte-preserving off the convert branch -/

/-- C7: a fresh resolved artifact whose first two bytes are neither the
BMP magic nor the PPM magic is renamed to the destination unchanged, so
the destination bytes equal the raw capture bytes; BMP/PPM artifacts are
instead re-encoded by Jimp, and the destination then holds the re-encoded
bytes. -/
theorem normalize_rename_byte_identical (env : AttemptEnv) (fs0 : DirFS) (st : FileEntry)
    (h1 : env.captureErr = none)
    (h2 : fsStat (sweptFS env fs0) (resolveArtifact env (sweptFS env fs0)) = some st)
    (h3 : ¬ env.now1 - st.mtime > 5000) :
    (isBmpBytes st.content = false → isPpmBytes st.content = false →
      isImageBlack st.content = false →
        captureImage env fs0 =
          .ok (finalFilename env)
            (fsRename (sweptFS env fs0) (resolveArtifact env (sweptFS env fs0))
              (finalFilename env)) ∧
        fsRead
            (fsRename (sweptFS env fs0) (resolveArtifact env (sweptFS env fs0))
              (finalFilename env)) (finalFilename env) = some st.content) ∧
      ((isBmpBytes st.content = true ∨ isPpmBytes st.content = true) →
        resolveArtifact env (sweptFS env fs0) ≠ finalFilename env →
        fsRead (captureImage env fs0).dir (finalFilename env) =
          some (env.jimp st.content)) := by
  constructor
  · intro hb hp hblack
    refine ⟨?_, fsRead_rename_dst _ _ _ st h2⟩
    simp only [captureImage, h1, processArtifact, h2]
    rw [if_neg h3]
    simp [hb, hp, hblack]
  · intro hmag hneq
    have hor : (isBmpBytes st.content || isPpmBytes st.content) = true := by
      rcases hmag with h | h <;> simp [h]
    have hread : fsRead
        (fsUnlink (fsWriteEntry (sweptFS env fs0)
            ⟨finalFilename env, env.nowWrite, env.jimp st.content⟩)
          (resolveArtifact env (sweptFS env fs0))) (finalFilename env) =
        some (env.jimp st.content) := by
      unfold fsRead
      rw [fsStat_unlink_ne _ _ _ (Ne.symm hneq)]
      have hw : fsStat (fsWriteEntry (sweptFS env fs0)
            ⟨finalFilename env, env.nowWrite, env.jimp st.content⟩) (finalFilename env) =
          some ⟨finalFilename env, env.nowWrite, env.jimp st.content⟩ :=
        fsStat_writeEntry_self _ _
      rw [hw]
      rfl
    simp only [captureImage, h1, processArtifact, h2]
    rw [if_neg h3, if_pos hor, hread]
    cases hbl : isImageBlack (env.jimp st.content) <;>
      simp [hbl, hread, CapResult.dir]

/-- Witness for C7 on the concrete rename-path environment: the returned
file holds exactly the raw captured bytes. -/
theorem normalize_rename_byte_identical_witness :
    captureImage envRename [] =
        .ok (finalFilename envRename)
          (fsRename (sweptFS envRename []) (resolveArtifact envRename (sweptFS envRename []))
            (finalFilename envRename)) ∧
      fsRead
          (fsRename (sweptFS envRename []) (resolveArtifact envRename (sweptFS envRename []))
            (finalFilename envRename)) (finalFilename envRename) =
        some (⟨"capture_temp_1000_aaaaaa", 99000, jpegBytes⟩ : FileEntry).content :=
  (normalize_rename_byte_identical envRename [] ⟨"capture_temp_1000_aaaaaa", 99000, jpegBytes⟩
    rfl (by decide) (by decide)).1 (by decide) (by decide) (by decide)

/-! ### C1: artifact cleanup on rejection -/

/-- C1 (amended): deletion of rejected artifacts is branch-dependent — on
the rename (non-BMP/PPM) branch a degenerate artifact IS deleted before
the black-frame error returns, but on the convert (BMP/PPM) branch, when
the Jimp re-encoding is classified degenerate, the converted final JPEG is
left on disk when the error returns; and on success — on EITHER branch —
exactly one artifact remains: the returned path is the final JPEG, which
exists, the resolved captured file is gone, and every remaining file
tagged with the session id is the final JPEG. -/
theorem black_frame_cleanup (env : AttemptEnv) (fs0 : DirFS) (st : FileEntry)
    (h1 : env.captureErr = none)
    (h2 : fsStat (sweptFS env fs0) (resolveArtifact env (sweptFS env fs0)) = some st)
    (h3 : ¬ env.now1 - st.mtime > 5000) :
    (isBmpBytes st.content = false → isPpmBytes st.content = false →
      isImageBlack st.content = true →
        captureImage env fs0 =
          .err blackMsg
            (fsUnlink (sweptFS env fs0) (resolveArtifact env (sweptFS env fs0))) ∧
        fsExists (fsUnlink (sweptFS env fs0) (resolveArtifact env (sweptFS env fs0)))
          (resolveArtifact env (sweptFS env fs0)) = false) ∧
      ((isBmpBytes st.content = true ∨ isPpmBytes st.content = true) →
        resolveArtifact env (sweptFS env fs0) ≠ finalFilename env →
        isImageBlack (env.jimp st.content) = true →
          captureImage env fs0 =
            .err blackMsg
              (fsUnlink (fsWriteEntry (sweptFS env fs0)
                  ⟨finalFilename env, env.nowWrite, env.jimp st.content⟩)
                (resolveArtifact env (sweptFS env fs0))) ∧
          fsExists (captureImage env fs0).dir (finalFilename env) = true) ∧
      (resolveArtifact env (sweptFS env fs0) ≠ finalFilename env →
        ∀ pR fsR, captureImage env fs0 = .ok pR fsR →
          pR = finalFilename env ∧
          fsExists fsR (finalFilename env) = true ∧
          fsExists fsR (resolveArtifact env (sweptFS env fs0)) = false ∧
          ((∀ f ∈ sweptFS env fs0, strIncludes f.name env.uniqueId = true →
              f.name = resolveArtifact env (sweptFS env fs0)) →
            ∀ f ∈ fsR, strIncludes f.name env.uniqueId = true →
              f.name = finalFilename env)) := by
  refine ⟨?_, ?_, ?_⟩
  · intro hb hp hblack
    refine ⟨?_, fsExists_unlink_self _ _⟩
    simp only [captureImage, h1, processArtifact, h2]
    rw [if_neg h3]
    simp [hb, hp, hblack]
  · intro hmag hneq hjb
    have hor : (isBmpBytes st.content || isPpmBytes st.content) = true := by
      rcases hmag with h | h <;> simp [h]
    have hread : fsRead
        (fsUnlink (fsWriteEntry (sweptFS env fs0)
            ⟨finalFilename env, env.nowWrite, env.jimp st.content⟩)
          (resolveArtifact env (sweptFS env fs0))) (finalFilename env) =
        some (env.jimp st.content) := by
      unfold fsRead
      rw [fsStat_unlink_ne _ _ _ (Ne.symm hneq)]
      have hw : fsStat (fsWriteEntry (sweptFS env fs0)
            ⟨finalFilename env, env.nowWrite, env.jimp st.content⟩) (finalFilename env) =
          some ⟨finalFilename env, env.nowWrite, env.jimp st.content⟩ :=
        fsStat_writeEntry_self _ _
      rw [hw]
      rfl
    have hmain : captureImage env fs0 =
        .err blackMsg
          (fsUnlink (fsWriteEntry (sweptFS env fs0)
              ⟨finalFilename env, env.nowWrite, env.jimp st.content⟩)
            (resolveArtifact env (sweptFS env fs0))) := by
      simp only [captureImage, h1, processArtifact, h2]
      rw [if_neg h3, if_pos hor, hread]
      simp [hjb]
    refine ⟨hmain, ?_⟩
    rw [hmain]
    unfold CapResult.dir fsExists
    rw [fsStat_unlink_ne _ _ _ (Ne.symm hneq)]
    have hw : fsStat (fsWriteEntry (sweptFS env fs0)
          ⟨finalFilename env, env.nowWrite, env.jimp st.content⟩) (finalFilename env) =
        some ⟨finalFilename env, env.nowWrite, env.jimp st.content⟩ :=
      fsStat_writeEntry_self _ _
    rw [hw]
    rfl
  · intro hneq pR fsR hok
    by_cases hmag : (isBmpBytes st.content || isPpmBytes st.content) = true
    · -- convert branch
      have hread : fsRead
          (fsUnlink (fsWriteEntry (sweptFS env fs0)
              ⟨finalFilename env, env.nowWrite, env.jimp st.content⟩)
            (resolveArtifact env (sweptFS env fs0))) (finalFilename env) =
          some (env.jimp st.content) := by
        unfold fsRead
        rw [fsStat_unlink_ne _ _ _ (Ne.symm hneq)]
        have hw : fsStat (fsWriteEntry (sweptFS env fs0)
              ⟨finalFilename env, env.nowWrite, env.jimp st.content⟩) (finalFilename env) =
            some ⟨finalFilename env, env.nowWrite, env.jimp st.content⟩ :=
          fsStat_writeEntry_self _ _
        rw [hw]
        rfl
      have hred : captureImage env fs0 =
          if isImageBlack (env.jimp st.content) then
            .err blackMsg
              (fsUnlink (fsWriteEntry (sweptFS env fs0)
                  ⟨finalFilename env, env.nowWrite, env.jimp st.content⟩)
                (resolveArtifact env (sweptFS env fs0)))
          else
            .ok (finalFilename env)
              (fsUnlink (fsWriteEntry (sweptFS env fs0)
                  ⟨finalFilename env, env.nowWrite, env.jimp st.content⟩)
                (resolveArtifact env (sweptFS env fs0))) := by
        simp only [captureImage, h1, processArtifact, h2]
        rw [if_neg h3, if_pos hmag, hread]
      cases hjb : isImageBlack (env.jimp st.content) with
      | true =>
        rw [hred, if_pos hjb] at hok
        simp at hok
      | false =>
        rw [hred, if_neg (by simp [hjb])] at hok
        injection hok with hpeq hfseq
        subst hpeq
        subst hfseq
        refine ⟨rfl, ?_, fsExists_unlink_self _ _, ?_⟩
        · unfold fsExists
          rw [fsStat_unlink_ne _ _ _ (Ne.symm hneq)]
          have hw : fsStat (fsWriteEntry (sweptFS env fs0)
                ⟨finalFilename env, env.nowWrite, env.jimp st.content⟩) (finalFilename env) =
              some ⟨finalFilename env, env.nowWrite, env.jimp st.content⟩ :=
            fsStat_writeEntry_self _ _
          rw [hw]
          rfl
        · intro hses f hf hinc
          obtain ⟨hf2, hnp⟩ := mem_fsUnlink _ _ _ hf
          rcases mem_fsWriteEntry _ _ _ hf2 with heq | ⟨hmem, hnn⟩
          · rw [heq]
          · exact absurd (hses f hmem hinc) hnp
    · -- rename branch
      have hred : captureImage env fs0 =
          if isImageBlack st.content then
            .err blackMsg (fsUnlink (sweptFS env fs0) (resolveArtifact env (sweptFS env fs0)))
          else
            .ok (finalFilename env)
              (fsRename (sweptFS env fs0) (resolveArtifact env (sweptFS env fs0))
                (finalFilename env)) := by
        simp only [captureImage, h1, processArtifact, h2]
        rw [if_neg h3, if_neg hmag]
      cases hbl : isImageBlack st.content with
      | true =>
        rw [hred, if_pos hbl] at hok
        simp at hok
      | false =>
        rw [hred, if_neg (by simp [hbl])] at hok
        injection hok with hpeq hfseq
        subst hpeq
        subst hfseq
        have hren : fsRename (sweptFS env fs0) (resolveArtifact env (sweptFS env fs0))
            (finalFilename env) =
            fsWriteEntry (fsUnlink (sweptFS env fs0) (resolveArtifact env (sweptFS env fs0)))
              ⟨finalFilename env, st.mtime, st.content⟩ := by
          unfold fsRename
          rw [h2]
        refine ⟨rfl, ?_, ?_, ?_⟩
        · rw [hren]
          unfold fsExists
          have hw : fsStat (fsWriteEntry
                (fsUnlink (sweptFS env fs0) (resolveArtifact env (sweptFS env fs0)))
                ⟨finalFilename env, st.mtime, st.content⟩) (finalFilename env) =
              some ⟨finalFilename env, st.mtime, st.content⟩ :=
            fsStat_writeEntry_self _ _
          rw [hw]
          rfl
        · rw [hren]
          unfold fsExists
          have hw : fsStat (fsWriteEntry
                (fsUnlink (sweptFS env fs0) (resolveArtifact env (sweptFS env fs0)))
                ⟨finalFilename env, st.mtime, st.content⟩)
                (resolveArtifact env (sweptFS env fs0)) =
              fsStat (fsUnlink
                (fsUnlink (sweptFS env fs0) (resolveArtifact env (sweptFS env fs0)))
                (finalFilename env)) (resolveArtifact env (sweptFS env fs0)) :=
            fsStat_writeEntry_ne _ _ _ hneq
          rw [hw, fsStat_unlink_ne _ _ _ hneq, fsStat_unlink_self]
          rfl
        · intro hses f hf hinc
          rw [hren] at hf
          rcases mem_fsWriteEntry _ _ _ hf with heq | ⟨hmem, hnn⟩
          · rw [heq]
          · obtain ⟨hmem2, hnp⟩ := mem_fsUnlink _ _ _ hmem
            exact absurd (hses f hmem2 hinc) hnp

/-- Witness for C1 (amended): the rename-branch black rejection deletes
the artifact; a rename-path success and a convert-path success each leave
exactly the final JPEG as the session artifact, with the captured temp
file gone. -/
theorem black_frame_cleanup_witness :
    (captureImage (allBlackEnvs 0) [] =
        .err blackMsg
          (fsUnlink (sweptFS (allBlackEnvs 0) [])
            (resolveArtifact (allBlackEnvs 0) (sweptFS (allBlackEnvs 0) []))) ∧
      fsExists (fsUnlink (sweptFS (allBlackEnvs 0) [])
          (resolveArtifact (allBlackEnvs 0) (sweptFS (allBlackEnvs 0) [])))
        (resolveArtifact (allBlackEnvs 0) (sweptFS (allBlackEnvs 0) [])) = false) ∧
    (finalFilename envRename = finalFilename envRename ∧
      fsExists [⟨"capture_1000_aaaaaa.jpeg", 99000, jpegBytes⟩]
        (finalFilename envRename) = true ∧
      fsExists [⟨"capture_1000_aaaaaa.jpeg", 99000, jpegBytes⟩]
        (resolveArtifact envRename (sweptFS envRename [])) = false ∧
      ((∀ f ∈ sweptFS envRename [], strIncludes f.name envRename.uniqueId = true →
          f.name = resolveArtifact envRename (sweptFS envRename [])) →
        ∀ f ∈ ([⟨"capture_1000_aaaaaa.jpeg", 99000, jpegBytes⟩] : DirFS),
          strIncludes f.name envRename.uniqueId = true →
            f.name = finalFilename envRename)) ∧
    (finalFilename envConvertOk = finalFilename envConvertOk ∧
      fsExists [⟨"capture_8000_hhhhhh.jpeg", 100000, jpegBytes⟩]
        (finalFilename envConvertOk) = true ∧
      fsExists [⟨"capture_8000_hhhhhh.jpeg", 100000, jpegBytes⟩]
        (resolveArtifact envConvertOk (sweptFS envConvertOk [])) = false ∧
      ((∀ f ∈ sweptFS envConvertOk [], strIncludes f.name envConvertOk.uniqueId = true →
          f.name = resolveArtifact envConvertOk (sweptFS envConvertOk [])) →
        ∀ f ∈ ([⟨"capture_8000_hhhhhh.jpeg", 100000, jpegBytes⟩] : DirFS),
          strIncludes f.name envConvertOk.uniqueId = true →
            f.name = finalFilename envConvertOk)) :=
  ⟨(black_frame_cleanup (allBlackEnvs 0) [] ⟨"capture_temp_4000_d0", 0, blackBytes⟩
      rfl (by decide) (by decide)).1 (by decide) (by decide) (by decide),
   (black_frame_cleanup envRename [] ⟨"capture_temp_1000_aaaaaa", 99000, jpegBytes⟩
      rfl (by decide) (by decide)).2.2 (by decide) (finalFilename envRename)
      [⟨"capture_1000_aaaaaa.jpeg", 99000, jpegBytes⟩] (by decide),
   (black_frame_cleanup envConvertOk [] ⟨"capture_temp_8000_hhhhhh", 100000, [80, 54, 99]⟩
      rfl (by decide) (by decide)).2.2 (by decide) (finalFilename envConvertOk)
      [⟨"capture_8000_hhhhhh.jpeg", 100000, jpegBytes⟩] (by decide)⟩

/-- Counterexample to C1 as stated: a PPM capture converting to a black
JPEG is rejected, yet the converted artifact `capture_3000_cccccc.jpeg`
created by this very attempt is still on disk when the error returns; and
a full orchestrator run of three such attempts ends with THREE leftover
artifact files, not zero. -/
theorem rejected_black_artifact_left_on_disk :
    (captureImage envConvertBlack [] =
        .err blackMsg [⟨"capture_3000_cccccc.jpeg", 100000, blackBytes⟩] ∧
      fsExists (captureImage envConvertBlack []).dir
        (finalFilename envConvertBlack) = true) ∧
      captureLoop allConvertBlackEnvs [] =
        .err blackMsg
          [⟨"capture_5000_e0.jpeg", 0, blackBytes⟩,
           ⟨"capture_5000_e1.jpeg", 0, blackBytes⟩,
           ⟨"capture_5000_e2.jpeg", 0, blackBytes⟩] 3 [2000, 2000] :=
  ⟨⟨by decide, by decide⟩, by decide⟩

/-! ### Orchestrator loop lemmas -/

theorem addDelay_attempts (d : Nat) (o : LoopOutcome) :
    (addDelay d o).attempts = o.attempts := by
  cases o <;> rfl

theorem addDelay_delays (d : Nat) (o : LoopOutcome) :
    (addDelay d o).delays = d :: o.delays := by
  cases o <;> rfl

theorem captureLoopAux_attempts_le (envs : Nat → AttemptEnv) (fuel k : Nat) (fs : DirFS) :
    (captureLoopAux envs fuel k fs).attempts ≤ k + fuel := by
  induction fuel generalizing k fs with
  | zero => simp [captureLoopAux, LoopOutcome.attempts]
  | succ fuel ih =>
    rw [captureLoopAux]
    cases hcap : captureImage (envs k) fs with
    | ok p fs2 =>
      simp [LoopOutcome.attempts]
    | err m fs2 =>
      dsimp only
      by_cases hc : (strIncludes m "black" && decide (k + 1 < maxRetries)) = true
      · rw [if_pos hc, addDelay_attempts]
        have := ih (k + 1) fs2
        omega
      · rw [if_neg hc]
        simp [LoopOutcome.attempts]

theorem captureLoopAux_delays_const (envs : Nat → AttemptEnv) (fuel k : Nat) (fs : DirFS) :
    ∀ d ∈ (captureLoopAux envs fuel k fs).delays, d = 2000 := by
  induction fuel generalizing k fs with
  | zero => simp [captureLoopAux, LoopOutcome.delays]
  | succ fuel ih =>
    rw [captureLoopAux]
    cases hcap : captureImage (envs k) fs with
    | ok p fs2 => simp [LoopOutcome.delays]
    | err m fs2 =>
      dsimp only
      by_cases hc : (strIncludes m "black" && decide (k + 1 < maxRetries)) = true
      · rw [if_pos hc, addDelay_delays]
        intro d hd
        rcases List.mem_cons.mp hd with h | h
        · rw [h]
          rfl
        · exact ih (k + 1) fs2 d h
      · rw [if_neg hc]
        simp [LoopOutcome.delays]

/-! ### C2: retry policy -/

/-- C2 (amended): the orchestrator performs at most 3 capture attempts,
every settle delay it inserts is the constant 2000 ms (not an increasing
delay), and a first-attempt failure whose message does NOT contain the
substring `black` propagates immediately, with no further attempt and no
delay.  (Retry is decided by `message.includes('black')`, which holds for
the degenerate-frame classification but also for any other failure whose
message happens to contain `black`.) -/
theorem retry_policy (envs : Nat → AttemptEnv) (fs0 : DirFS) :
    (captureLoop envs fs0).attempts ≤ 3 ∧
      (∀ d ∈ (captureLoop envs fs0).delays, d = 2000) ∧
      (∀ m fs1, captureImage (envs 0) fs0 = .err m fs1 →
        strIncludes m "black" = false →
        captureLoop envs fs0 = .err m fs1 1 []) := by
  refine ⟨?_, captureLoopAux_delays_const envs maxRetries 0 fs0, ?_⟩
  · have h := captureLoopAux_attempts_le envs maxRetries 0 fs0
    have hmr : maxRetries = 3 := rfl
    unfold captureLoop
    omega
  · intro m fs1 hcap hnb
    show captureLoopAux envs 3 0 fs0 = .err m fs1 1 []
    simp [captureLoopAux, hcap, hnb]

/-- Witness for C2: a first-attempt device error whose message lacks
`black` is propagated as-is after exactly one attempt, and the attempt
bound holds there. -/
theorem retry_policy_witness :
    (captureLoop deviceErrEnvs []).attempts ≤ 3 ∧
      captureLoop deviceErrEnvs [] = .err "device unplugged" [] 1 [] :=
  ⟨(retry_policy deviceErrEnvs []).1,
   (retry_policy deviceErrEnvs []).2.2 "device unplugged" [] (by decide) (by decide)⟩

/-- Counterexample to C2 as stated: (a) an artifact-not-found
normalization error whose message mentions the unrelated directory file
`blackmail.png` contains the substring `black` and IS retried (the run
makes a second attempt after a settle delay instead of propagating the
normalization error immediately); (b) the settle delays of a fully
retried run are `[2000, 2000]` — constant, not increasing. -/
theorem retry_policy_counterexample :
    (captureImage (mixedFailEnvs 0) mixedFailFS =
        .err ("Failed to process captured image: Error: Captured image not found. Looked for: capture_temp_6000_f0 with ID: 6000_f0. Files in dir: blackmail.png")
          mixedFailFS ∧
      strIncludes "Failed to process captured image: Error: Captured image not found. Looked for: capture_temp_6000_f0 with ID: 6000_f0. Files in dir: blackmail.png"
        "black" = true) ∧
      captureLoop mixedFailEnvs mixedFailFS =
        .err "device unplugged" mixedFailFS 2 [2000] ∧
      (captureLoop allBlackEnvs []).delays = [2000, 2000] :=
  ⟨⟨by decide, by decide⟩, by decide, by decide⟩

/-! ### C4: error after exhausting retries -/

/-- C4 (amended): when all three attempts fail with messages containing
`black` (three degenerate-frame classifications), the orchestrator makes
exactly 3 attempts with two 2000 ms delays and rethrows the THIRD
attempt's error itself — not a synthesized
`capture failed after N attempts` message. -/
theorem exhausted_retries_black_error (envs : Nat → AttemptEnv)
    (fs0 fs1 fs2 fs3 : DirFS) (m0 m1 m2 : String)
    (h0 : captureImage (envs 0) fs0 = .err m0 fs1)
    (hb0 : strIncludes m0 "black" = true)
    (h1 : captureImage (envs 1) fs1 = .err m1 fs2)
    (hb1 : strIncludes m1 "black" = true)
    (h2 : captureImage (envs 2) fs2 = .err m2 fs3) :
    captureLoop envs fs0 = .err m2 fs3 3 [2000, 2000] := by
  show captureLoopAux envs 3 0 fs0 = .err m2 fs3 3 [2000, 2000]
  simp [captureLoopAux, h0, h1, h2, hb0, hb1, maxRetries, settleDelayMs, addDelay]

/-- Witness for C4 (amended): three rename-branch black frames in a row. -/
theorem exhausted_retries_black_error_witness :
    captureLoop allBlackEnvs [] = .err blackMsg [] 3 [2000, 2000] :=
  exhausted_retries_black_error allBlackEnvs [] [] [] [] blackMsg blackMsg blackMsg
    (by decide) (by decide) (by decide) (by decide) (by decide)

/-- Counterexample to C4 as stated: after three degenerate-frame
classifications the orchestrator error message is the wrapped black-frame
message, which is not `capture failed after 3 attempts` (and not of that
form at all). -/
theorem exhausted_message_not_spec_form :
    captureLoop allBlackEnvs [] = .err blackMsg [] 3 [2000, 2000] ∧
      blackMsg ≠ "capture failed after 3 attempts" ∧
      strIncludes blackMsg "capture failed after" = false :=
  ⟨by decide, by decide, by decide⟩

/-- Sanity: Linux probing yields the `/dev/video0` descriptor. -/
example : listDevices linuxPlatform = [⟨"USB Camera (video0)", "0"⟩] := by decide

/-- Sanity: with no devices at all the synthetic default is returned. -/
example : listDevices emptyPlatform = [⟨"Default Camera", "0"⟩] := by decide

/-- C9: `listDevices` never returns an empty list, and whenever
platform-native enumeration (Linux `/dev/video` probing, node-webcam
listing) yields zero results, the synthetic single-entry default list
(name `Default Camera`, id `0`) is returned. -/
theorem listDevices_nonempty_default (s : PlatformState) :
    listDevices s ≠ [] ∧
      ((s.platform = "linux" → linuxVideoDevices s = []) →
        (s.nwList = none ∨ s.nwList = some []) →
        listDevices s = defaultDeviceList) := by
  constructor
  · unfold listDevices
    split
    · rename_i hcond
      exact hcond.2
    · cases hnw : s.nwList with
      | none => simp [defaultDeviceList]
      | some l =>
        cases l with
        | nil => simp [defaultDeviceList]
        | cons x xs => simp
  · intro hlin hempty
    unfold listDevices
    rw [if_neg]
    · rcases hempty with h | h <;> rw [h]
    · rintro ⟨hp, hne⟩
      exact hne (hlin hp)

/-- Witness for C9: a deviceless platform state yields exactly the
default list, which is non-empty. -/
theorem listDevices_nonempty_default_witness :
    listDevices emptyPlatform = defaultDeviceList ∧ listDevices emptyPlatform ≠ [] :=
  ⟨(listDevices_nonempty_default emptyPlatform).2
      (fun h => absurd h (by decide)) (Or.inr rfl),
   (listDevices_nonempty_default emptyPlatform).1⟩

/-- Witness for C5: a 10-second-old artifact with valid JPEG content is
rejected as stale. -/
theorem stale_artifact_rejected_witness :
    captureImage envStale [] =
      .err (staleMsg (envStale.now1 -
          (⟨"capture_temp_1000_aaaaaa", 90000, jpegBytes⟩ : FileEntry).mtime))
        (sweptFS envStale []) :=
  stale_artifact_rejected envStale [] ⟨"capture_temp_1000_aaaaaa", 90000, jpegBytes⟩
    rfl (by decide) (by decide)
